import Mathlib

/-!
Shallow embedding of src/code_runner/server.js.

The file models the POST /execute handler of the code-runner service: the
destructuring of the request body, the per-language switch that writes the
source file into the single shared temp directory and composes a command
string, the child_process.exec invocation of that string, the cleanup the
exec callback performs, and the JSON responses the handler sends.
-/

namespace CodeRunner

/-- Value of the Node global __dirname for server.js; the claims use it only
as an opaque fixed root, so any fixed string is adequate. -/
def dirname : String := "/server"

/-- Model of path.join for the two-argument calls made in server.js. -/
def pathJoin (a b : String) : String := a ++ "/" ++ b

/-- The single temp directory created once at startup:
path.join(__dirname, "temp"). It is shared by every request. -/
def tempDir : String := pathJoin dirname "temp"

/-- The request body of POST /execute, as destructured by
`const (language, code) = req.body`. `code` is an Option because the JSON
body may lack the field, in which case the destructured value is undefined. -/
structure Request where
  language : String
  code : Option String
deriving DecidableEq

/-- The JSON bodies server.js can send. `jsonError` is
res.status(400).json with an error field; `jsonRaw` is
res.status(500).json(stderr); `jsonOutput` is res.status(200).json with an
output field; `expressInternal` is the express default error page sent when
the handler throws synchronously. -/
inductive Body
  | jsonError (msg : String)
  | jsonRaw (stderr : String)
  | jsonOutput (output : Bool)
  | expressInternal
deriving DecidableEq

/-- An HTTP response: status code plus JSON body. -/
structure Response where
  status : Nat
  body : Body
deriving DecidableEq

/-- Outcome of the synchronous part of the handler (everything before the
exec callback runs): an early response (the 400 branch), a synchronous
throw out of fs.writeFileSync, or proceeding to exec with the files written
so far, the filename and optional executable variables, and the composed
command string. -/
inductive SyncOutcome
  | response (r : Response)
  | thrown
  | proceed (writes : List (String × String)) (filename : String)
      (executable : Option String) (command : String)
deriving DecidableEq

/-- The synchronous part of the POST /execute handler, mirroring the switch
on language in server.js line by line. fs.writeFileSync(filename, code)
throws a TypeError before creating any file when code is undefined, which
the `none` branches model; the command string is composed only after the
write succeeds, exactly as in the source. -/
def handlerSync (req : Request) : SyncOutcome :=
  if req.language = "python" then
    let filename := pathJoin tempDir "temp.py"
    match req.code with
    | none => .thrown
    | some c => .proceed [(filename, c)] filename none ("python3 " ++ filename)
  else if req.language = "c" ∨ req.language = "c++" then
    let extension := if req.language = "c" then "c" else "cpp"
    let filename := pathJoin tempDir ("temp." ++ extension)
    let executable := pathJoin tempDir "temp_executable"
    match req.code with
    | none => .thrown
    | some c => .proceed [(filename, c)] filename (some executable)
        ("g++ " ++ filename ++ " -o " ++ executable ++ " && " ++ executable)
  else if req.language = "java" then
    let filename := pathJoin tempDir "Temp.java"
    match req.code with
    | none => .thrown
    | some c => .proceed [(filename, c)] filename none
        ("javac " ++ filename ++ " && java -cp " ++ tempDir ++ " Temp")
  else
    .response ⟨400, .jsonError "Unsupported language"⟩

/-- The command string the handler hands to exec, when it reaches exec. -/
def commandOf (req : Request) : Option String :=
  match handlerSync req with
  | .proceed _ _ _ c => some c
  | _ => none

/-- The filesystem paths a request writes or produces inside the temp
directory before cleanup: the written source file plus the executable slot
when the language is compiled to temp_executable. -/
def workspacePaths (req : Request) : List String :=
  match handlerSync req with
  | .proceed writes _ executable _ =>
      writes.map Prod.fst ++ (match executable with | some e => [e] | none => [])
  | _ => []

/-- Whether the synchronous part reaches the exec call and spawns a child. -/
def spawnsChild : SyncOutcome → Bool
  | .proceed _ _ _ _ => true
  | _ => false

/-- The response the caller receives before any child process runs: the
early 400, or the express default 500 page when the handler threw; when the
handler proceeds to exec the response comes later from the callback. -/
def expressImmediateResponse : SyncOutcome → Option Response
  | .response r => some r
  | .thrown => some ⟨500, .expressInternal⟩
  | .proceed _ _ _ _ => none

/-- Node child_process.exec semantics: the command string is not spawned
directly; it is handed to a command shell, with argument vector
["/bin/sh", "-c", command]. -/
def execSpawnArgv (command : String) : List String := ["/bin/sh", "-c", command]

/-- server.js passes no options object to exec, so the Node default
timeout of 0 applies, meaning exec never kills the child. -/
def execTimeoutMs : Nat := 0

/-- Whether exec terminates the child at the given runtime: only when a
positive timeout is configured and exceeded, hence never for server.js. -/
def execKillsChildAt (childRuntimeMs : Nat) : Bool :=
  decide (0 < execTimeoutMs ∧ execTimeoutMs < childRuntimeMs)

/-- With no timeout configured, the exec callback fires only when the child
exits, so the response is produced at the time the child happens to exit. -/
def responseTimeMs (childRuntimeMs : Nat) : Nat := childRuntimeMs

/-- Arguments Node passes to the exec callback: error is non-null when any
stage of the command exited non-zero or failed to spawn; stdout and stderr
are the captured streams. -/
structure ProcOutcome where
  error : Bool
  stdout : String
  stderr : String
deriving DecidableEq

/-- Whitespace as stripped by the JS String trim method, restricted to the
ASCII whitespace characters that can occur in captured process output. -/
def isJsWhitespace (c : Char) : Bool :=
  c == ' ' || c == '\t' || c == '\n' || c == '\r'

/-- Model of the JS String trim method called on stdout in the exec
callback: removes whitespace from both ends of the string. -/
def jsTrim (s : String) : String :=
  ⟨((s.data.dropWhile isJsWhitespace).reverse.dropWhile isJsWhitespace).reverse⟩

/-- The response built inside the exec callback: any error becomes
res.status(500).json(stderr); otherwise stdout is trimmed, compared with
the literal text true, and the resulting boolean is sent as
res.status(200).json with an output field. -/
def execCallbackResponse (o : ProcOutcome) : Response :=
  if o.error then ⟨500, .jsonRaw o.stderr⟩
  else ⟨200, .jsonOutput (jsTrim o.stdout == "true")⟩

/-- Artifacts the toolchain drops into the shared temp directory when the
compile stage of the command succeeds: g++ writes temp_executable for c and
c++, javac writes Temp.class for java, python has no compile stage. -/
def compileArtifacts (language : String) (compileOk : Bool) : List String :=
  if compileOk then
    if language = "c" ∨ language = "c++" then [pathJoin tempDir "temp_executable"]
    else if language = "java" then [pathJoin tempDir "Temp.class"]
    else []
  else []

/-- fs.unlinkSync on the model disk. -/
def removeFile (disk : List String) (p : String) : List String :=
  disk.filter (fun q => q ≠ p)

/-- The files of a request still on disk after the exec callback ran its
cleanup: the callback unlinks filename unconditionally, then unlinks the
executable only when the executable variable was set and the file exists.
Nothing else is removed. -/
def filesRemaining (req : Request) (compileOk : Bool) : List String :=
  match handlerSync req with
  | .proceed writes filename executable _ =>
      let disk := writes.map Prod.fst ++ compileArtifacts req.language compileOk
      let disk := removeFile disk filename
      match executable with
      | some e => if disk.contains e then removeFile disk e else disk
      | none => disk
  | _ => []

/-- One request lifecycle event at the server: a request arrives at the
handler, or an in-flight request completes. -/
inductive ServerEvent
  | arrive
  | complete

/-- Number of in-flight executions after a sequence of events. server.js
has no slot pool, semaphore, or admission branch: every arriving request is
handled immediately, so each arrival increments the in-flight count
unconditionally. -/
def inflight : List ServerEvent → Nat
  | [] => 0
  | ServerEvent.arrive :: es => inflight es + 1
  | ServerEvent.complete :: es => inflight es - 1

/-- In-flight count after n back-to-back arrivals with no completion. -/
theorem inflight_replicate_arrive (n : Nat) :
    inflight (List.replicate n ServerEvent.arrive) = n := by
  induction n with
  | zero => rfl
  | succ k ih => simpa [List.replicate_succ, inflight] using ih

/-- C1: the claim says compile and run steps are invoked as direct argument
vectors and never interpreted by a command shell. In server.js the composed
command string for a python request is handed to child_process.exec, whose
spawn vector is a shell invocation /bin/sh -c of that string, so the steps
are shell-interpreted, contradicting the claim. -/
theorem C1_command_is_shell_interpreted :
    commandOf ⟨"python", some "print(42)"⟩ = some "python3 /server/temp/temp.py" ∧
    execSpawnArgv "python3 /server/temp/temp.py" =
      ["/bin/sh", "-c", "python3 /server/temp/temp.py"] := by
  constructor
  · rfl
  · rfl

/-- C2: the claim says concurrent requests use disjoint filesystem paths.
Two distinct python requests both write the single shared path
/server/temp/temp.py, so their workspace paths are not disjoint. -/
theorem C2_concurrent_requests_share_path :
    (⟨"python", some "print(1)"⟩ : Request) ≠ (⟨"python", some "print(2)"⟩ : Request) ∧
    pathJoin tempDir "temp.py" ∈ workspacePaths ⟨"python", some "print(1)"⟩ ∧
    pathJoin tempDir "temp.py" ∈ workspacePaths ⟨"python", some "print(2)"⟩ := by
  refine ⟨by decide, ?_, ?_⟩ <;> simp [workspacePaths, handlerSync, pathJoin, tempDir, dirname]

/-- C3: the claim says every file the request created, including the java
class file, is removed before execute returns. For a java request whose
compile succeeds, the callback unlinks only Temp.java, and javac's
Temp.class artifact remains on disk. -/
theorem C3_java_class_file_left_on_disk :
    filesRemaining ⟨"java", some "class Temp"⟩ true = [pathJoin tempDir "Temp.class"] ∧
    filesRemaining ⟨"java", some "class Temp"⟩ true ≠ [] := by
  constructor
  · rfl
  · decide

/-- C4: the claim says completed compile and run failures map to a 200
response with a typed CompileError or RuntimeError verdict, never a 5xx.
In server.js any non-null exec error, including a compile failure of the
submitted code, is answered with status 500 and the raw stderr. -/
theorem C4_code_failure_reported_as_500 :
    execCallbackResponse ⟨true, "", "temp.cpp: error: expected semicolon"⟩ =
      ⟨500, .jsonRaw "temp.cpp: error: expected semicolon"⟩ ∧ (500 : Nat) ≠ 200 := by
  constructor
  · rfl
  · decide

/-- C5: the claim says successful stdout is returned verbatim modulo a
trailing trim, never collapsed to another representation. server.js
collapses every successful run to the boolean comparison of trimmed stdout
with the literal text true: two different outputs produce the identical
boolean body, which carries neither byte sequence. -/
theorem C5_stdout_collapsed_to_boolean :
    execCallbackResponse ⟨false, "hello\n", ""⟩ = ⟨200, .jsonOutput false⟩ ∧
    execCallbackResponse ⟨false, "world\n", ""⟩ = ⟨200, .jsonOutput false⟩ ∧
    ("hello\n" : String) ≠ "world\n" := by
  refine ⟨?_, ?_, by decide⟩ <;> decide

/-- C6: a request whose language is not python, c, c++ or java takes the
default switch branch: the handler returns status 400 with error
"Unsupported language" immediately, writes no file, and allocates no path. -/
theorem C6_unsupported_language_rejected_without_files (req : Request)
    (h1 : req.language ≠ "python") (h2 : req.language ≠ "c")
    (h3 : req.language ≠ "c++") (h4 : req.language ≠ "java") :
    handlerSync req = .response ⟨400, .jsonError "Unsupported language"⟩ ∧
    workspacePaths req = [] ∧ spawnsChild (handlerSync req) = false := by
  have hs : handlerSync req = .response ⟨400, .jsonError "Unsupported language"⟩ := by
    simp [handlerSync, h1, h2, h3, h4]
  refine ⟨hs, ?_, ?_⟩
  · simp [workspacePaths, hs]
  · simp [spawnsChild, hs]

/-- Witness for C6 at the concrete unsupported language ruby. -/
theorem C6_unsupported_language_rejected_without_files_witness :
    handlerSync ⟨"ruby", some "puts 1"⟩ =
      .response ⟨400, .jsonError "Unsupported language"⟩ ∧
    workspacePaths ⟨"ruby", some "puts 1"⟩ = [] ∧
    spawnsChild (handlerSync ⟨"ruby", some "puts 1"⟩) = false :=
  C6_unsupported_language_rejected_without_files ⟨"ruby", some "puts 1"⟩
    (by decide) (by decide) (by decide) (by decide)

/-- C7: the claim says a program exceeding the wall-clock limit yields a
Timeout verdict within the limit plus a small epsilon and a killed process
tree. server.js passes no timeout to exec, so the child is never killed,
and for a child sleeping 60000 ms the response arrives only at 60000 ms,
far beyond a 2000 ms limit plus a 500 ms epsilon, and even then it is an
ordinary 200 boolean response, not a Timeout verdict. -/
theorem C7_no_timeout_enforced :
    execTimeoutMs = 0 ∧
    execKillsChildAt 60000 = false ∧
    responseTimeMs 60000 = 60000 ∧
    ¬ responseTimeMs 60000 ≤ 2000 + 500 ∧
    execCallbackResponse ⟨false, "", ""⟩ = ⟨200, .jsonOutput false⟩ := by
  refine ⟨rfl, rfl, rfl, by decide, by decide⟩

/-- C8: the claim says at most N requests are in flight for a fixed pool
size N, with an Overloaded failure when saturated. server.js has no pool:
after N + 1 simultaneous arrivals with none completed, N + 1 requests are
in flight, exceeding every fixed bound N, and the callback can only answer
500 or 200, never an Overloaded error. -/
theorem C8_admission_is_unbounded (N : Nat) :
    inflight (List.replicate (N + 1) ServerEvent.arrive) = N + 1 ∧
    N < inflight (List.replicate (N + 1) ServerEvent.arrive) ∧
    ∀ o : ProcOutcome, (execCallbackResponse o).status = 500 ∨
      (execCallbackResponse o).status = 200 := by
  refine ⟨inflight_replicate_arrive (N + 1), ?_, ?_⟩
  · rw [inflight_replicate_arrive (N + 1)]
    exact Nat.lt_succ_self N
  · intro o
    by_cases h : o.error
    · left; simp [execCallbackResponse, h]
    · right; simp [execCallbackResponse, h]

/-- C9: the command string handed to exec depends only on the language and
the fixed server-side paths: two requests with the same language and any
present source code produce the identical command. -/
theorem C9_command_depends_only_on_language (r1 r2 : Request)
    (h : r1.language = r2.language)
    (h1 : r1.code.isSome) (h2 : r2.code.isSome) :
    commandOf r1 = commandOf r2 := by
  obtain ⟨c1, hc1⟩ := Option.isSome_iff_exists.mp h1
  obtain ⟨c2, hc2⟩ := Option.isSome_iff_exists.mp h2
  unfold commandOf handlerSync
  rw [← h, hc1, hc2]
  split_ifs <;> rfl

/-- Witness for C9: two python requests with different source code get the
same command string. -/
theorem C9_command_depends_only_on_language_witness :
    commandOf ⟨"python", some "print(1)"⟩ = commandOf ⟨"python", some "print(2)"⟩ :=
  C9_command_depends_only_on_language ⟨"python", some "print(1)"⟩
    ⟨"python", some "print(2)"⟩ rfl (by decide) (by decide)

/-- C10: for a supported language with the code field absent,
fs.writeFileSync(filename, undefined) throws synchronously before any
command is composed or any child spawned; express catches the throw and
answers with its default 500 internal error, and no file is created. -/
theorem C10_missing_code_throws_before_exec (req : Request)
    (hs : req.language = "python" ∨ req.language = "c" ∨
      req.language = "c++" ∨ req.language = "java")
    (hc : req.code = none) :
    handlerSync req = .thrown ∧
    expressImmediateResponse (handlerSync req) = some ⟨500, .expressInternal⟩ ∧
    spawnsChild (handlerSync req) = false ∧
    workspacePaths req = [] := by
  have ht : handlerSync req = .thrown := by
    rcases hs with h | h | h | h <;> simp [handlerSync, h, hc]
  refine ⟨ht, ?_, ?_, ?_⟩
  · simp [expressImmediateResponse, ht]
  · simp [spawnsChild, ht]
  · simp [workspacePaths, ht]

/-- Witness for C10 at the concrete request with language python and no
code field. -/
theorem C10_missing_code_throws_before_exec_witness :
    handlerSync ⟨"python", none⟩ = .thrown ∧
    expressImmediateResponse (handlerSync ⟨"python", none⟩) =
      some ⟨500, .expressInternal⟩ ∧
    spawnsChild (handlerSync ⟨"python", none⟩) = false ∧
    workspacePaths ⟨"python", none⟩ = [] :=
  C10_missing_code_throws_before_exec ⟨"python", none⟩ (Or.inl rfl) rfl

end CodeRunner
